import Mathlib

/-!
Shallow embedding of the two MQTT example programs of this repository:
`smart-home-system/smart_home_controller.py` (topic matcher, automation rule
engine) and `industrial-iot-monitor/industrial_monitor.py` (device registry,
sensor windows, alert engine, performance metrics, liveness sweep, message
dispatcher).

Modelling conventions:
- Python numbers (floats/ints) are modelled exactly by `ℚ`; `datetime`
  instants by integer epoch seconds (`Int`).
- Python dicts that are used in insertion order are modelled by association
  lists `List (String × α)`.
- The single irrational quantity produced by the code (`statistics.stdev`)
  is represented symbolically: see `Industrial.MetricVal`.
- A Python exception in otherwise-pure code is modelled by `Option`/`Except`;
  the surrounding `try/except` blocks of the source decide how far a raised
  exception propagates, and the model returns at exactly that point.
-/

/-- Python `s.split(sep)` for a one-character separator, on the character
list; the accumulator holds the current (reversed) segment.  Like Python,
the result is never `[]` and empty segments are kept. -/
def pySplitAux (sep : Char) : List Char → List Char → List String
  | [], acc => [String.mk acc.reverse]
  | c :: cs, acc =>
    if c = sep then String.mk acc.reverse :: pySplitAux sep cs []
    else pySplitAux sep cs (c :: acc)

/-- Python `s.split(sep)` for a one-character separator. -/
def pySplit (sep : Char) (s : String) : List String :=
  pySplitAux sep s.toList []

/-- Python `sep.join(parts)`. -/
def joinSep (sep : String) : List String → String
  | [] => ""
  | [x] => x
  | x :: y :: xs => x ++ sep ++ joinSep sep (y :: xs)

/-- First-match lookup in an association list (Python `d[k]` / `k in d`). -/
def alookup {α : Type} : List (String × α) → String → Option α
  | [], _ => none
  | (k, v) :: rest, key => if k = key then some v else alookup rest key

/-- In-place mutation of the value object stored at key `k` (Python code of
the form `d[k].field = ...` or `d[k] = f(d[k])`); a no-op when `k` is absent. -/
def dictUpdate {α : Type} : List (String × α) → String → (α → α) → List (String × α)
  | [], _, _ => []
  | (k0, v) :: rest, k, f =>
    (k0, if k0 = k then f v else v) :: dictUpdate rest k f

/-- Python `d[k] = v`: overwrite in place when the key is present, append
a fresh entry otherwise. -/
def dictSet {α : Type} (d : List (String × α)) (k : String) (v : α) :
    List (String × α) :=
  if (alookup d k).isSome then dictUpdate d k (fun _ => v) else d ++ [(k, v)]

/-- Python `d.update(entries)`. -/
def dictSetMany {α : Type} (d : List (String × α)) (entries : List (String × α)) :
    List (String × α) :=
  entries.foldl (fun acc p => dictSet acc p.1 p.2) d

/-- Append then keep only the last `cap` entries: the
`lst.append(x); if len(lst) > cap: lst = lst[-cap:]` pattern used by the
source for sensor windows (cap 1000) and alert histories (cap 100). -/
def appendCapped {α : Type} (cap : Nat) (l : List α) (x : α) : List α :=
  let l2 := l ++ [x]
  if l2.length > cap then l2.drop (l2.length - cap) else l2

/-- Whether the first list is an initial segment of the second. -/
def listStarts : List Char → List Char → Bool
  | [], _ => true
  | _ :: _, [] => false
  | p :: ps, c :: cs => p == c && listStarts ps cs

/-- Python `s.replace(pat, sub)`: left-to-right, non-overlapping, not
rescanning the substituted text.  `fuel` bounds the scan and is always
instantiated with the length of the input, which suffices because every
step consumes at least one character. -/
def replaceAux (pat sub : List Char) : Nat → List Char → List Char
  | _, [] => []
  | 0, l => l
  | fuel + 1, c :: cs =>
    if listStarts pat (c :: cs) ∧ pat ≠ [] then
      sub ++ replaceAux pat sub fuel (cs.drop (pat.length - 1))
    else c :: replaceAux pat sub fuel cs

/-- Python `s.replace(pat, sub)`. -/
def pyReplace (s pat sub : String) : String :=
  String.mk (replaceAux pat.toList sub.toList s.toList.length s.toList)

namespace SmartHome

/-- A decoded JSON scalar as it appears in smart-home payloads. -/
inductive SJVal
  | num (q : ℚ)
  | str (s : String)
  | bool (b : Bool)
deriving DecidableEq, Repr

/-- A decoded JSON payload: either an object (Python dict) or some other
JSON value, on which dict methods such as `.get` raise. -/
inductive SPayload
  | obj (fields : List (String × SJVal))
  | nonObj
deriving DecidableEq, Repr

/-- Python truthiness of a JSON scalar, as used by
`if rule["condition"](payload):`. -/
def truthy : SJVal → Bool
  | .bool b => b
  | .num q => decide (q ≠ 0)
  | .str s => decide (s ≠ "")

/-- One entry of a rule's `actions` list. -/
structure RuleAction where
  topic_template : String
  payload : List (String × SJVal)
deriving DecidableEq, Repr

/-- An automation rule: trigger topic pattern, predicate over the payload
(`.error ()` models a Python exception raised by the lambda), actions. -/
structure Rule where
  name : String
  trigger_topic : String
  condition : SPayload → Except Unit Bool
  actions : List RuleAction

/-- An outbound `client.publish(topic, payload, qos)` call. -/
structure SPub where
  topic : String
  payload : List (String × SJVal)
  qos : Nat
deriving DecidableEq, Repr

/-- `SmartHomeController.topic_matches_pattern`: split both strings on `/`,
require equal segment counts, and compare segmentwise, where a pattern
segment `+` or `#` matches any single topic segment. -/
def topic_matches_pattern (topic pattern : String) : Bool :=
  let topic_parts := pySplit '/' topic
  let pattern_parts := pySplit '/' pattern
  if topic_parts.length ≠ pattern_parts.length then false
  else (topic_parts.zip pattern_parts).all fun tp =>
    tp.2 == "+" || tp.2 == "#" || tp.2 == tp.1

/-- `SmartHomeController.execute_rule_actions`: extract the room from the
trigger topic, substitute it into each action's topic template and publish
each action at qos 1.  (The per-action `try/except` of the source never
fires in this model: template substitution and serialization are total.) -/
def execute_rule_actions (actions : List RuleAction) (trigger_topic : String) :
    List SPub :=
  let topic_parts := pySplit '/' trigger_topic
  let room :=
    match topic_parts with
    | _ :: r :: _ => r
    | _ => "unknown"
  actions.map fun a => ⟨pyReplace a.topic_template "\x7broom\x7d" room, a.payload, 1⟩

/-- `SmartHomeController.check_automation_rules`: walk the rules in
configuration order; a matching rule with a true predicate fires its
actions; a predicate that raises aborts the loop (the exception propagates
to `on_message`, which catches it).  Returns the fired publishes and
whether the walk completed without an escaping exception. -/
def check_automation_rules : List Rule → String → SPayload → List SPub × Bool
  | [], _, _ => ([], true)
  | r :: rest, topic, payload =>
    if topic_matches_pattern topic r.trigger_topic then
      match r.condition payload with
      | .error _ => ([], false)
      | .ok true =>
        let fired := execute_rule_actions r.actions topic
        let next := check_automation_rules rest topic payload
        (fired ++ next.1, next.2)
      | .ok false => check_automation_rules rest topic payload
    else check_automation_rules rest topic payload

/-- Modelled from the spec (for comparison with `check_automation_rules`):
the rule-engine semantics as the specification words it — a predicate
exception is treated as predicate-false and the remaining rules are still
evaluated. -/
def check_automation_rules_spec : List Rule → String → SPayload → List SPub
  | [], _, _ => []
  | r :: rest, topic, payload =>
    (if topic_matches_pattern topic r.trigger_topic then
      match r.condition payload with
      | .ok true => execute_rule_actions r.actions topic
      | _ => []
    else []) ++ check_automation_rules_spec rest topic payload

/-- Predicate of the default motion rule:
`lambda data: data.get("detected", False)`; raises (AttributeError) on a
non-dict payload. -/
def motionCond : SPayload → Except Unit Bool
  | .obj fields => .ok (truthy ((alookup fields "detected").getD (.bool false)))
  | .nonObj => .error ()

/-- Predicate of the default temperature rule:
`lambda data: data.get("temperature", 0) > 28`; comparing a string with an
int raises (TypeError), as does `.get` on a non-dict payload.  A Python
bool compares as 0/1. -/
def tempCond : SPayload → Except Unit Bool
  | .obj fields =>
    match (alookup fields "temperature").getD (.num 0) with
    | .num q => .ok (decide (q > 28))
    | .bool b => .ok (decide ((if b then (1 : ℚ) else 0) > 28))
    | .str _ => .error ()
  | .nonObj => .error ()

/-- The default "Motion Light Control" rule. -/
def motion_rule : Rule :=
  ⟨"Motion Light Control", "home/+/motion/detected", motionCond,
    [⟨"home/\x7broom\x7d/light/command",
      [("state", .str "on"), ("brightness", .num 80)]⟩]⟩

/-- The default "Temperature Control" rule. -/
def temperature_rule : Rule :=
  ⟨"Temperature Control", "home/+/temperature/value", tempCond,
    [⟨"home/\x7broom\x7d/ac/command",
      [("state", .str "on"), ("mode", .str "cool"), ("temperature", .num 24)]⟩]⟩

/-- `setup_default_automation_rules`: the configuration-order rule list. -/
def automation_rules : List Rule := [motion_rule, temperature_rule]

/-- A probe rule whose predicate raises on every payload; rules are plain
data fed to the engine, so this is a legitimate engine input. -/
def probeRuleErr : Rule :=
  ⟨"probe-err", "home/+/motion/detected", fun _ => .error (), []⟩

/-- A probe rule that always fires one action. -/
def probeRuleFire : Rule :=
  ⟨"probe-fire", "home/+/motion/detected", fun _ => .ok true,
    [⟨"home/\x7broom\x7d/light/command", [("state", .str "on")]⟩]⟩

end SmartHome

namespace Industrial

/-- `AlertLevel` of the source. -/
inductive AlertLevel
  | info
  | warning
  | critical
  | emergency
deriving DecidableEq, Repr

/-- `MachineStatus` of the source. -/
inductive MachineStatus
  | running
  | idle
  | maintenance
  | error
  | offline
deriving DecidableEq, Repr

/-- The string backing of an `AlertLevel` (`level.value`). -/
def levelValue : AlertLevel → String
  | .info => "info"
  | .warning => "warning"
  | .critical => "critical"
  | .emergency => "emergency"

/-- A decoded JSON scalar as it appears in industrial payloads.  An ISO
timestamp string is modelled by its parsed instant `.time t`; `.str` covers
the remaining (non-timestamp, non-numeric) strings. -/
inductive JVal
  | num (q : ℚ)
  | str (s : String)
  | bool (b : Bool)
  | time (t : Int)
deriving DecidableEq, Repr

/-- Python `str(v)` rendering of a scalar, for message text. -/
def jvalStr : JVal → String
  | .num q => toString q
  | .str s => s
  | .bool b => if b then "True" else "False"
  | .time t => toString t

/-- `payload.get(k, d)` on a decoded JSON object. -/
def getD (p : List (String × JVal)) (k : String) (d : JVal) : JVal :=
  (alookup p k).getD d

/-- Python `float(v)`: exact on numbers, 0/1 on bools; a non-numeric
string raises (`none`).  Numeric-string coercion is not modelled: any
string is treated as a conversion failure, as are timestamp strings. -/
def jvalToFloat : JVal → Option ℚ
  | .num q => some q
  | .bool b => some (if b then 1 else 0)
  | .str _ => none
  | .time _ => none

/-- `datetime.fromisoformat(v)`: succeeds exactly on ISO timestamp strings
(modelled by `.time`), raises otherwise. -/
def parseTime : JVal → Option Int
  | .time t => some t
  | _ => none

/-- Python `s.title()`; sensor kinds are single lowercase words, for which
`title` and `capitalize` agree. -/
def pyTitle (s : String) : String := s.capitalize

/-- `SensorData` of the source.  `unit` stores whatever JSON value
`payload.get("unit", "")` returned (Python performs no coercion). -/
structure SensorData where
  machine_id : String
  sensor_type : String
  value : ℚ
  unit : JVal
  timestamp : Int
  quality : ℚ
deriving DecidableEq, Repr

/-- An alert dict as built by `generate_alert`. -/
structure Alert where
  machine_id : String
  level : AlertLevel
  message : String
  sensor_type : Option String
  value : Option ℚ
  threshold : Option ℚ
  timestamp : Int
  acknowledged : Bool
deriving DecidableEq, Repr

/-- A value of the `performance_metrics` mapping.  `statistics.stdev`
returns a square root that is irrational in general; it is represented
exactly and symbolically: `.sqrtv x` denotes the real number `√x`, every
other metric is the exact rational `.q x`. -/
inductive MetricVal
  | q (x : ℚ)
  | sqrtv (x : ℚ)
deriving DecidableEq, Repr

/-- `Machine` of the source, with the dataclass defaults.  `machine_type`
stores whatever JSON value `payload.get("machine_type", "unknown")`
returned. -/
structure Machine where
  machine_id : String
  machine_type : JVal
  line_id : String
  status : MachineStatus := .offline
  last_seen : Option Int := none
  sensor_data : List (String × List SensorData) := []
  alerts : List Alert := []
  performance_metrics : List (String × MetricVal) := []
deriving DecidableEq, Repr

/-- Payload of an outbound `client.publish` call of the monitor. -/
inductive PubPayload
  | alertMsg (a : Alert)
  | emergency (command : String) (reason : String) (timestamp : Int)
      (auto_generated : Bool)
  | commandResponse (command : String) (status : String) (timestamp : Int)
deriving DecidableEq, Repr

/-- One outbound `client.publish(topic, payload, qos)` call. -/
structure Pub where
  topic : String
  payload : PubPayload
  qos : Nat
deriving DecidableEq, Repr

/-- In-memory state of `IndustrialIoTMonitor`: the machine registry, the
production-line membership lists, the two statistics counters the core
mutates, and the trace of outbound publishes.  The sqlite persistence and
console rendering are external collaborators and carry no in-memory
state. -/
structure MonitorState where
  machines : List (String × Machine)
  production_lines : List (String × List String)
  stats_messages_processed : Nat
  stats_alerts_generated : Nat
  published : List Pub
deriving DecidableEq, Repr

/-- The `production_lines` dict of `__init__`. -/
def initLines : List (String × List String) :=
  [("line_a", []), ("line_b", []), ("line_c", [])]

/-- The monitor state right after `__init__`. -/
def initState : MonitorState := ⟨[], initLines, 0, 0, []⟩

/-- The `alert_thresholds` configuration: kind ↦ (warning, critical). -/
def alert_thresholds : List (String × (ℚ × ℚ)) :=
  [("temperature", (80, 95)), ("vibration", (2, 5)),
   ("pressure", (150, 200)), ("current", (80, 100))]

/-- `handle_critical_alert`: synthesize the emergency-stop command, split
the composed machine id at every `_`, take the first piece as the line and
re-join the rest as the machine name, and publish at qos 2.  Fewer than
two pieces: no publish. -/
def handle_critical_alert (s : MonitorState) (machine_id message : String)
    (now : Int) : MonitorState :=
  match pySplit '_' machine_id with
  | line_id :: m :: rest =>
    { s with published := s.published ++
        [⟨"factory/" ++ line_id ++ "/" ++ joinSep "_" (m :: rest) ++ "/emergency",
          .emergency "emergency_stop" message now true, 2⟩] }
  | _ => s

/-- `publish_alert`: forward every alert outward on
`factory/alerts/{level}` at qos 1. -/
def publish_alert (s : MonitorState) (alert : Alert) : MonitorState :=
  { s with published := s.published ++
      [⟨"factory/alerts/" ++ levelValue alert.level, .alertMsg alert, 1⟩] }

/-- `generate_alert`: build the alert dict, append it to the machine's
capped alert list when the machine exists, count it, run the critical
auto-response for Critical alerts, and always forward the alert outward. -/
def generate_alert (s : MonitorState) (now : Int) (machine_id : String)
    (level : AlertLevel) (message : String) (sensor_type : Option String)
    (value : Option ℚ) (threshold : Option ℚ) : MonitorState :=
  let alert : Alert := ⟨machine_id, level, message, sensor_type, value, threshold, now, false⟩
  let ms :=
    if (alookup s.machines machine_id).isSome then
      dictUpdate s.machines machine_id
        (fun m => { m with alerts := appendCapped 100 m.alerts alert })
    else s.machines
  let s1 := { s with machines := ms }
  let s2 := { s1 with stats_alerts_generated := s1.stats_alerts_generated + 1 }
  let s3 := if level = .critical then handle_critical_alert s2 machine_id message now else s2
  publish_alert s3 alert

/-- `check_sensor_alerts`: threshold check for one reading.  The source
passes the `Machine` object but reads only its `machine_id`, which is
passed here directly. -/
def check_sensor_alerts (s : MonitorState) (now : Int) (machine_id : String)
    (d : SensorData) : MonitorState :=
  match alookup alert_thresholds d.sensor_type with
  | none => s
  | some wc =>
    if d.value ≥ wc.2 then
      generate_alert s now machine_id .critical
        (pyTitle d.sensor_type ++ " critical: " ++ toString d.value ++ " " ++ jvalStr d.unit)
        (some d.sensor_type) (some d.value) (some wc.2)
    else if d.value ≥ wc.1 then
      generate_alert s now machine_id .warning
        (pyTitle d.sensor_type ++ " high: " ++ toString d.value ++ " " ++ jvalStr d.unit)
        (some d.sensor_type) (some d.value) (some wc.1)
    else s

/-- Arithmetic mean, `statistics.mean`. -/
def listMean (values : List ℚ) : ℚ := values.sum / (values.length : ℚ)

/-- The square of `statistics.stdev`: sample variance with the `n - 1`
denominator. -/
def sampleVarianceNm1 (values : List ℚ) : ℚ :=
  ((values.map fun v => (v - listMean values) ^ 2).sum) / ((values.length : ℚ) - 1)

/-- Python `min(values)`; the empty case is unreachable at every call site
(the caller guards `len >= 10`). -/
def pyMin : List ℚ → ℚ
  | [] => 0
  | x :: xs => xs.foldl min x

/-- Python `max(values)`; the empty case is unreachable at every call site. -/
def pyMax : List ℚ → ℚ
  | [] => 0
  | x :: xs => xs.foldl max x

/-- `calculate_trend`: ordinary-least-squares slope of value against
0-based index; 0 for fewer than two values or a zero denominator. -/
def calculate_trend (values : List ℚ) : ℚ :=
  if values.length < 2 then 0
  else
    let x : List ℚ := (List.range values.length).map fun i => (i : ℚ)
    let n : ℚ := (values.length : ℚ)
    let x_mean := x.sum / n
    let y_mean := values.sum / n
    let numerator := ((x.zip values).map fun q => (q.1 - x_mean) * (q.2 - y_mean)).sum
    let denominator := (x.map fun xi => (xi - x_mean) ^ 2).sum
    if denominator ≠ 0 then numerator / denominator else 0

/-- The `values` list of `calculate_performance_metrics`: the values of the
most recent 100 window entries. -/
def recentValues (w : List SensorData) : List ℚ :=
  (w.drop (w.length - 100)).map SensorData.value

/-- `calculate_performance_metrics`: with at least 10 recent readings,
write the five derived metrics for the kind into the machine's metric
mapping; otherwise do nothing. -/
def calculate_performance_metrics (m : Machine) (sensor_type : String) : Machine :=
  match alookup m.sensor_data sensor_type with
  | none => m
  | some w =>
    let values := recentValues w
    if values.length ≥ 10 then
      let entries : List (String × MetricVal) :=
        [(sensor_type ++ "_mean", .q (listMean values)),
         (sensor_type ++ "_std",
           if values.length > 1 then .sqrtv (sampleVarianceNm1 values) else .q 0),
         (sensor_type ++ "_min", .q (pyMin values)),
         (sensor_type ++ "_max", .q (pyMax values)),
         (sensor_type ++ "_trend", .q (calculate_trend values))]
      { m with performance_metrics := dictSetMany m.performance_metrics entries }
    else m

/-- `send_machine_command`: split the composed id at `_` and publish the
executed-command response at qos 1. -/
def send_machine_command (s : MonitorState) (machine_id command : String)
    (now : Int) : MonitorState :=
  match pySplit '_' machine_id with
  | line_id :: m :: rest =>
    { s with published := s.published ++
        [⟨"factory/" ++ line_id ++ "/" ++ joinSep "_" (m :: rest) ++ "/commands/response",
          .commandResponse command "executed" now, 1⟩] }
  | _ => s

/-- A fresh `Machine(...)` as constructed by `handle_sensor_data`. -/
def mkMachine (full : String) (machine_type : JVal) (line_id : String) : Machine :=
  { machine_id := full, machine_type := machine_type, line_id := line_id }

/-- The production-line bookkeeping of `handle_sensor_data`: append the
machine to its line's membership list when the line is configured and the
machine is not yet listed. -/
def addToLine (pl : List (String × List String)) (line_id full : String) :
    List (String × List String) :=
  match alookup pl line_id with
  | none => pl
  | some ms => if full ∈ ms then pl else dictUpdate pl line_id fun l => l ++ [full]

/-- The `SensorData(...)` construction of `handle_sensor_data`; `none`
models a raised conversion error (`float` on a non-number,
`fromisoformat` on a non-timestamp), which the handler's `except`
catches. -/
def mkSensorData (full sensor_type : String) (now : Int)
    (payload : List (String × JVal)) : Option SensorData :=
  match jvalToFloat (getD payload "value" (.num 0)),
        parseTime (getD payload "timestamp" (.time now)),
        jvalToFloat (getD payload "quality" (.num 1)) with
  | some v, some t, some q =>
    some ⟨full, sensor_type, v, getD payload "unit" (.str ""), t, q⟩
  | _, _, _ => none

/-- The window append of `handle_sensor_data`: create the kind's list when
absent, append the reading, keep the last 1000. -/
def windowAppendDict (sd : List (String × List SensorData)) (sensor_type : String)
    (d : SensorData) : List (String × List SensorData) :=
  let sd1 := if (alookup sd sensor_type).isNone then sd ++ [(sensor_type, [])] else sd
  dictUpdate sd1 sensor_type fun w => appendCapped 1000 w d

/-- `handle_sensor_data`: lazily create the machine, record activity
(last-seen, status Running), build the reading (a conversion error aborts
here, keeping the prior mutations — best-effort semantics), append it to
the window, run the threshold check and recompute the metrics. -/
def handle_sensor_data (s : MonitorState) (now : Int)
    (line_id machine_id sensor_type : String)
    (payload : List (String × JVal)) : MonitorState :=
  let full := line_id ++ "_" ++ machine_id
  let s1 :=
    if (alookup s.machines full).isNone then
      let msNew := s.machines ++
        [(full, mkMachine full (getD payload "machine_type" (.str "unknown")) line_id)]
      let sc := { s with machines := msNew }
      { sc with production_lines := addToLine sc.production_lines line_id full }
    else s
  let msSeen :=
    dictUpdate s1.machines full (fun m => { m with last_seen := some now, status := .running })
  let s2 := { s1 with machines := msSeen }
  match mkSensorData full sensor_type now payload with
  | none => s2
  | some d =>
    let msApp :=
      dictUpdate s2.machines full
        (fun m => { m with sensor_data := windowAppendDict m.sensor_data sensor_type d })
    let s3 := { s2 with machines := msApp }
    let s4 := check_sensor_alerts s3 now full d
    let msMetrics := dictUpdate s4.machines full (fun m => calculate_performance_metrics m sensor_type)
    { s4 with machines := msMetrics }

/-- `MachineStatus(str)`: `none` models the `ValueError` on an
unrecognized value. -/
def parseStatus : JVal → Option MachineStatus
  | .str "running" => some .running
  | .str "idle" => some .idle
  | .str "maintenance" => some .maintenance
  | .str "error" => some .error
  | .str "offline" => some .offline
  | _ => none

/-- `handle_status_update`: only for known machines; set the parsed status
and last-seen; on a genuine transition into ERROR raise a Critical alert;
an unparsable status (`ValueError`) changes nothing. -/
def handle_status_update (s : MonitorState) (now : Int)
    (line_id machine_id : String) (payload : List (String × JVal)) : MonitorState :=
  let full := line_id ++ "_" ++ machine_id
  match alookup s.machines full with
  | none => s
  | some m =>
    match parseStatus (getD payload "status" (.str "offline")) with
    | none => s
    | some newStatus =>
      let msUpd :=
        dictUpdate s.machines full
          (fun m0 => { m0 with status := newStatus, last_seen := some now })
      let s1 := { s with machines := msUpd }
      if m.status ≠ newStatus ∧ newStatus = .error then
        generate_alert s1 now full .critical
          ("Machine entered ERROR state: " ++
            jvalStr (getD payload "error_message" (.str "Unknown error")))
          none none none
      else s1

/-- `handle_command`: start/stop publish a command response; the
`maintenance` and `reset_alerts` branches call methods
(`schedule_maintenance`, `reset_machine_alerts`) that do not exist in the
source — the AttributeError is caught by `on_message` and no state
changes. -/
def handle_command (s : MonitorState) (now : Int) (line_id machine_id : String)
    (payload : List (String × JVal)) : MonitorState :=
  let full := line_id ++ "_" ++ machine_id
  match alookup payload "command" with
  | some (.str "start") => send_machine_command s full "start_production" now
  | some (.str "stop") => send_machine_command s full "stop_production" now
  | _ => s

/-- `handle_maintenance_data`: for known machines, set status Maintenance
and record an Info alert. -/
def handle_maintenance_data (s : MonitorState) (now : Int)
    (line_id machine_id : String) (payload : List (String × JVal)) : MonitorState :=
  let full := line_id ++ "_" ++ machine_id
  match alookup s.machines full with
  | none => s
  | some _ =>
    let msUpd := dictUpdate s.machines full (fun m0 => { m0 with status := .maintenance })
    let s1 := { s with machines := msUpd }
    generate_alert s1 now full .info
      ("Maintenance started: " ++
        jvalStr (getD payload "type" (.str "None")))
      none none none

/-- `on_message`: count the event, decode it (`none` models a payload that
is not decodable as JSON — the `JSONDecodeError` drops the event), and
route by topic shape.  Topics with fewer than four segments reach the
`factory/alerts` / `factory/production` branches, whose handler methods do
not exist in the source; the AttributeError is caught here, so nothing
beyond the counter changes.  A `sensors` topic with no fifth segment
raises IndexError, likewise caught. -/
def on_message (s : MonitorState) (now : Int) (topic : String)
    (payload : Option (List (String × JVal))) : MonitorState :=
  let s1 := { s with stats_messages_processed := s.stats_messages_processed + 1 }
  match payload with
  | none => s1
  | some p =>
    match pySplit '/' topic with
    | _ :: line_id :: machine_id :: message_type :: rest =>
      if message_type = "sensors" then
        match rest with
        | sensor_type :: _ => handle_sensor_data s1 now line_id machine_id sensor_type p
        | [] => s1
      else if message_type = "status" then handle_status_update s1 now line_id machine_id p
      else if message_type = "commands" then handle_command s1 now line_id machine_id p
      else if message_type = "maintenance" then handle_maintenance_data s1 now line_id machine_id p
      else s1
    | _ => s1

/-- An inbound transport event: arrival instant, topic, decoded payload
(`none` when not decodable as JSON). -/
structure RawMsg where
  time : Int
  topic : String
  payload : Option (List (String × JVal))

/-- Feed a trace of inbound events to the dispatcher, starting from the
freshly initialized monitor. -/
def processTrace (msgs : List RawMsg) : MonitorState :=
  msgs.foldl (fun s m => on_message s m.time m.topic m.payload) initState

/-- Whether an inbound event is a decodable sensor-data event whose
composed identity is `mid` — exactly the events that create registry
entries. -/
def sensorCreates (topic : String) (payload : Option (List (String × JVal)))
    (mid : String) : Bool :=
  payload.isSome &&
    match pySplit '/' topic with
    | _ :: l :: mm :: mt :: _ :: _ => mt == "sensors" && mid == l ++ "_" ++ mm
    | _ => false

/-- The offline-transition alert raised by the health check. -/
def offlineAlert (now : Int) (mid : String) (t : Int) : Alert :=
  ⟨mid, .warning, "Machine went offline (last seen: " ++ toString t ++ ")",
    none, none, none, now, false⟩

/-- The loop body of `perform_health_check` for one machine id: if the
machine has been seen, more than 300 seconds (5 minutes) ago, and is not
already Offline, set it Offline and raise the Warning alert. -/
def health_check_one (now : Int) (s : MonitorState) (mid : String) : MonitorState :=
  match alookup s.machines mid with
  | none => s
  | some m =>
    match m.last_seen with
    | none => s
    | some t =>
      if now - t > 300 then
        if m.status ≠ .offline then
          let msOff := dictUpdate s.machines mid (fun m0 => { m0 with status := .offline })
          generate_alert { s with machines := msOff } now mid .warning
            ("Machine went offline (last seen: " ++ toString t ++ ")")
            none none none
        else s
      else s

/-- `perform_health_check`: sweep every machine of the registry in order. -/
def perform_health_check (now : Int) (s : MonitorState) : MonitorState :=
  (s.machines.map Prod.fst).foldl (health_check_one now) s

/-- Whether the sweep would transition this machine at instant `now`. -/
def triggered (now : Int) (m : Machine) : Bool :=
  match m.last_seen with
  | none => false
  | some t => decide (now - t > 300) && decide (m.status ≠ .offline)

/-- The per-machine effect of one sweep, proved against
`perform_health_check`: a triggered machine goes Offline and gets exactly
one Warning alert appended; every other machine is untouched. -/
def healthStep (now : Int) (mid : String) (m : Machine) : Machine :=
  match m.last_seen with
  | none => m
  | some t =>
    if now - t > 300 ∧ m.status ≠ .offline then
      { m with status := .offline,
               alerts := appendCapped 100 m.alerts (offlineAlert now mid t) }
    else m

/-- A ten-entry temperature window with values 1..10. -/
def sampleWindow : List SensorData :=
  [⟨"line_a_press01", "temperature", 1, .str "C", 0, 1⟩,
   ⟨"line_a_press01", "temperature", 2, .str "C", 0, 1⟩,
   ⟨"line_a_press01", "temperature", 3, .str "C", 0, 1⟩,
   ⟨"line_a_press01", "temperature", 4, .str "C", 0, 1⟩,
   ⟨"line_a_press01", "temperature", 5, .str "C", 0, 1⟩,
   ⟨"line_a_press01", "temperature", 6, .str "C", 0, 1⟩,
   ⟨"line_a_press01", "temperature", 7, .str "C", 0, 1⟩,
   ⟨"line_a_press01", "temperature", 8, .str "C", 0, 1⟩,
   ⟨"line_a_press01", "temperature", 9, .str "C", 0, 1⟩,
   ⟨"line_a_press01", "temperature", 10, .str "C", 0, 1⟩]

/-- A machine that has been seen at instant 0 and is Running. -/
def sampleMachine : Machine :=
  { machine_id := "line_a_press01", machine_type := .str "press",
    line_id := "line_a", status := .running, last_seen := some 0,
    sensor_data := [("temperature", sampleWindow)] }

/-- A monitor state holding just `sampleMachine`. -/
def sampleState : MonitorState :=
  ⟨[("line_a_press01", sampleMachine)], initLines, 0, 0, []⟩

/-- A 96-degree temperature reading of `sampleMachine`. -/
def sampleReading96 : SensorData :=
  ⟨"line_a_press01", "temperature", 96, .str "C", 0, 1⟩

end Industrial

/-! ### General lemmas about the dictionary and capped-list helpers -/

theorem alookup_append {α : Type} (d1 d2 : List (String × α)) (k : String) :
    alookup (d1 ++ d2) k = if (alookup d1 k).isSome then alookup d1 k else alookup d2 k := by
  induction d1 with
  | nil => simp [alookup]
  | cons p rest ih =>
    obtain ⟨k0, v0⟩ := p
    by_cases h : k0 = k
    · simp [alookup, h]
    · simp [alookup, h, ih]

theorem alookup_dictUpdate {α : Type} (d : List (String × α)) (k : String) (f : α → α)
    (k' : String) :
    alookup (dictUpdate d k f) k' = if k' = k then (alookup d k).map f else alookup d k' := by
  induction d with
  | nil => simp [alookup, dictUpdate]
  | cons p rest ih =>
    obtain ⟨k0, v0⟩ := p
    by_cases h0 : k0 = k
    · subst h0
      by_cases h1 : k0 = k'
      · subst h1
        simp [alookup, dictUpdate, ih]
      · have h1' : ¬ k' = k0 := fun h => h1 h.symm
        simp [alookup, dictUpdate, h1, h1', ih]
    · by_cases h1 : k0 = k'
      · subst h1
        have h0' : ¬ k0 = k := h0
        simp [alookup, dictUpdate, h0', ih]
      · simp [alookup, dictUpdate, h0, h1, ih]

theorem dictUpdate_absent {α : Type} (d : List (String × α)) (k : String) (f : α → α)
    (h : alookup d k = none) : dictUpdate d k f = d := by
  induction d with
  | nil => rfl
  | cons p rest ih =>
    obtain ⟨k0, v0⟩ := p
    by_cases h0 : k0 = k
    · simp [alookup, h0] at h
    · simp only [alookup, if_neg h0] at h
      simp [dictUpdate, h0, ih h]

theorem dictUpdate_dictUpdate {α : Type} (d : List (String × α)) (k : String)
    (f g : α → α) :
    dictUpdate (dictUpdate d k f) k g = dictUpdate d k (fun v => g (f v)) := by
  induction d with
  | nil => rfl
  | cons p rest ih =>
    obtain ⟨k0, v0⟩ := p
    by_cases h0 : k0 = k
    · simp [dictUpdate, h0, ih]
    · simp [dictUpdate, h0, ih]

theorem dictUpdate_map_fst {α : Type} (d : List (String × α)) (k : String) (f : α → α) :
    (dictUpdate d k f).map Prod.fst = d.map Prod.fst := by
  induction d with
  | nil => rfl
  | cons p rest ih =>
    obtain ⟨k0, v0⟩ := p
    by_cases h0 : k0 = k
    · simp [dictUpdate, h0, ih]
    · simp [dictUpdate, h0, ih]

theorem alookup_isSome_iff_mem {α : Type} (d : List (String × α)) (k : String) :
    (alookup d k).isSome = true ↔ k ∈ d.map Prod.fst := by
  induction d with
  | nil => simp [alookup]
  | cons p rest ih =>
    obtain ⟨k0, v0⟩ := p
    by_cases h0 : k0 = k
    · simp [alookup, h0]
    · simp [alookup, h0, ih, Ne.symm h0]

theorem alookup_dictSet {α : Type} (d : List (String × α)) (k : String) (v : α)
    (k' : String) :
    alookup (dictSet d k v) k' = if k' = k then some v else alookup d k' := by
  unfold dictSet
  by_cases h : (alookup d k).isSome = true
  · rw [if_pos h, alookup_dictUpdate]
    by_cases h1 : k' = k
    · subst h1
      obtain ⟨w, hw⟩ := Option.isSome_iff_exists.1 h
      simp [hw]
    · simp [h1]
  · rw [if_neg h, alookup_append]
    by_cases h1 : k' = k
    · subst h1
      simp only [Option.not_isSome_iff_eq_none] at h
      simp [h, alookup]
    · by_cases h2 : (alookup d k').isSome = true
      · simp [h2, h1]
      · simp only [Option.not_isSome_iff_eq_none] at h2
        have hne : ¬ k = k' := fun hh => h1 hh.symm
        simp [h2, alookup, h1, hne]

theorem appendCapped_eq_drop {α : Type} (cap : Nat) (l : List α) (x : α) :
    appendCapped cap l x = (l ++ [x]).drop (l.length + 1 - cap) := by
  unfold appendCapped
  by_cases h : (l ++ [x]).length > cap
  · simp only [if_pos h]
    congr 1
    simp
  · simp only [if_neg h]
    simp only [List.length_append, List.length_cons, List.length_nil] at h
    have : l.length + 1 - cap = 0 := by omega
    rw [this, List.drop_zero]

theorem appendCapped_length {α : Type} (cap : Nat) (l : List α) (x : α) :
    (appendCapped cap l x).length = min (l.length + 1) cap := by
  rw [appendCapped_eq_drop, List.length_drop]
  simp only [List.length_append, List.length_cons, List.length_nil]
  omega

theorem appendCapped_of_lt {α : Type} (cap : Nat) (l : List α) (x : α)
    (h : l.length < cap) : appendCapped cap l x = l ++ [x] := by
  rw [appendCapped_eq_drop]
  have : l.length + 1 - cap = 0 := by omega
  rw [this, List.drop_zero]

theorem drop_append_drop {α : Type} (A ds : List α) (k j : Nat) (hk : k ≤ A.length) :
    (A.drop k ++ ds).drop j = (A ++ ds).drop (k + j) := by
  rw [List.drop_append_eq_append_drop, List.drop_append_eq_append_drop, List.drop_drop,
    List.length_drop]
  have h2 : j - (A.length - k) = k + j - A.length := by omega
  rw [h2]

theorem foldl_appendCapped {α : Type} (cap : Nat) :
    ∀ (ds w : List α), w.length ≤ cap →
      ds.foldl (appendCapped cap) w = (w ++ ds).drop ((w ++ ds).length - cap)
  | [], w, hw => by
    simp only [List.foldl_nil, List.append_nil]
    have : w.length - cap = 0 := by omega
    rw [this, List.drop_zero]
  | d :: ds, w, hw => by
    rw [List.foldl_cons]
    have hlen : (appendCapped cap w d).length ≤ cap := by
      rw [appendCapped_length]; omega
    rw [foldl_appendCapped cap ds (appendCapped cap w d) hlen, appendCapped_eq_drop]
    have hk : w.length + 1 - cap ≤ (w ++ [d]).length := by
      simp only [List.length_append, List.length_cons, List.length_nil]; omega
    rw [drop_append_drop _ _ _ _ hk]
    have hassoc : (w ++ [d]) ++ ds = w ++ d :: ds := by simp
    rw [hassoc]
    congr 1
    simp only [List.length_append, List.length_drop, List.length_cons, List.length_nil]
    omega

namespace SmartHome

/-- The matcher's Boolean body is equivalent to a pointwise `Forall₂`
characterization on the segment lists. -/
theorem topic_matches_pattern_iff (t p : String) :
    topic_matches_pattern t p = true ↔
      List.Forall₂ (fun tseg pseg => pseg = "+" ∨ pseg = "#" ∨ pseg = tseg)
        (pySplit '/' t) (pySplit '/' p) := by
  simp only [topic_matches_pattern]
  generalize pySplit '/' t = ts
  generalize pySplit '/' p = ps
  induction ts generalizing ps with
  | nil =>
    cases ps with
    | nil => simp
    | cons b ps => simp
  | cons a ts ih =>
    cases ps with
    | nil => simp
    | cons b ps =>
      by_cases hl : ts.length = ps.length
      · have hcond : ¬ (a :: ts).length ≠ (b :: ps).length := by
          simp [hl]
        have hcond2 : ¬ ts.length ≠ ps.length := by simp [hl]
        rw [if_neg hcond]
        simp only [List.zip_cons_cons, List.all_cons, Bool.and_eq_true, List.forall₂_cons]
        rw [← ih ps, if_neg hcond2]
        simp only [Bool.or_eq_true, beq_iff_eq]
        tauto
      · have hcond : (a :: ts).length ≠ (b :: ps).length := by
          simp [hl]
        rw [if_pos hcond]
        constructor
        · intro h
          exact absurd h (by simp)
        · intro h
          exact absurd (List.Forall₂.length_eq h) (by simpa using hl)

/-- C1: the claim as stated is false on the code: a trailing `#` does not
match "zero or more remaining segments" — `matches("a/b/c/d", "a/#")`
returns `false` because segment counts must always agree. -/
theorem C1_counterexample :
    topic_matches_pattern "a/b/c/d" "a/#" = false := by decide

/-- C1 (amended): `matches(topic, pattern)` is true iff the two `/`-split
segment lists have equal length and agree segmentwise, where a pattern
segment `+` or `#` matches exactly one topic segment of any content (no
multi-level `#` behavior); in particular `matches("a/b/c","a/+/c")` is
true, `matches("a/b/c","a/+/+/d")` is false, `matches("a/b/c/d","a/#")`
is false, and `matches("a/b","a/b/#")` is false. -/
theorem C1_amended_matcher :
    (∀ t p : String,
      topic_matches_pattern t p = true ↔
        List.Forall₂ (fun tseg pseg => pseg = "+" ∨ pseg = "#" ∨ pseg = tseg)
          (pySplit '/' t) (pySplit '/' p))
    ∧ topic_matches_pattern "a/b/c" "a/+/c" = true
    ∧ topic_matches_pattern "a/b/c" "a/+/+/d" = false
    ∧ topic_matches_pattern "a/b/c/d" "a/#" = false
    ∧ topic_matches_pattern "a/b" "a/b/#" = false :=
  ⟨topic_matches_pattern_iff, by decide, by decide, by decide, by decide⟩

/-- C7: the claim as stated is false on the code: with a first rule whose
predicate raises and a second matching rule that would fire, the engine
publishes nothing (the exception aborts the walk before the second rule),
while the claimed semantics would still fire the second rule's action. -/
theorem C7_counterexample :
    (check_automation_rules [probeRuleErr, probeRuleFire]
        "home/kitchen/motion/detected" (.obj [])).1 = []
    ∧ check_automation_rules_spec [probeRuleErr, probeRuleFire]
        "home/kitchen/motion/detected" (.obj [])
        = [⟨"home/kitchen/light/command", [("state", .str "on")], 1⟩] := by
  constructor
  · rfl
  · rfl

/-- C7 (amended): rules are evaluated in configuration order and, as long
as no predicate raises, every rule whose trigger pattern matches and whose
predicate is true fires all of its actions in order (all matching rules
fire — the code agrees with the spec-worded engine); the configured
predicates treat a missing field as false via defaulted lookup; but a
predicate that raises an exception stops evaluation of the remaining
rules for that event — the already-fired actions stand and the escaping
exception is caught by the dispatcher (second component `false`), so it
is not fatal. -/
theorem C7_amended_rule_engine (rules : List Rule) (topic : String) (payload : SPayload) :
    ((∀ r ∈ rules, ∃ b, r.condition payload = .ok b) →
      check_automation_rules rules topic payload
        = (check_automation_rules_spec rules topic payload, true))
    ∧ (∀ pre r post, rules = pre ++ r :: post →
        (∀ r' ∈ pre, ∃ b, r'.condition payload = .ok b) →
        topic_matches_pattern topic r.trigger_topic = true →
        r.condition payload = .error () →
        check_automation_rules rules topic payload
          = (check_automation_rules_spec pre topic payload, false))
    ∧ motionCond (.obj []) = .ok false
    ∧ tempCond (.obj []) = .ok false := by
  refine ⟨?_, ?_, rfl, rfl⟩
  · intro hok
    induction rules with
    | nil => rfl
    | cons r rest ih =>
      obtain ⟨b, hb⟩ := hok r (by simp)
      have hrest : ∀ r' ∈ rest, ∃ b, r'.condition payload = .ok b := by
        intro r' h
        exact hok r' (by simp [h])
      by_cases hm : topic_matches_pattern topic r.trigger_topic = true
      · cases b <;>
          simp [check_automation_rules, check_automation_rules_spec, hm, hb, ih hrest]
      · simp [check_automation_rules, check_automation_rules_spec, hm, ih hrest]
  · intro pre r post hru hok hm herr
    subst hru
    induction pre with
    | nil =>
      simp [check_automation_rules, check_automation_rules_spec, hm, herr]
    | cons r0 pre ih =>
      obtain ⟨b, hb⟩ := hok r0 (by simp)
      have hpre : ∀ r' ∈ pre, ∃ b, r'.condition payload = .ok b := by
        intro r' h
        exact hok r' (by simp [h])
      by_cases hm0 : topic_matches_pattern topic r0.trigger_topic = true
      · cases b <;>
          simp [check_automation_rules, check_automation_rules_spec, hm0, hb, ih hpre]
      · simp [check_automation_rules, check_automation_rules_spec, hm0, ih hpre]

/-- C7 amended, witnessed on the configured rules: for the motion event
both default predicates return (no exception), so the engine output
coincides with the spec-worded engine and the walk completes. -/
theorem C7_amended_rule_engine_witness :
    check_automation_rules automation_rules "home/kitchen/motion/detected"
        (SPayload.obj [("detected", SJVal.bool true)])
      = (check_automation_rules_spec automation_rules "home/kitchen/motion/detected"
          (SPayload.obj [("detected", SJVal.bool true)]), true) := by
  refine (C7_amended_rule_engine automation_rules "home/kitchen/motion/detected"
    (SPayload.obj [("detected", SJVal.bool true)])).1 ?_
  intro r hr
  simp only [automation_rules, List.mem_cons, List.not_mem_nil, or_false] at hr
  rcases hr with rfl | rfl
  · exact ⟨true, rfl⟩
  · exact ⟨false, rfl⟩

end SmartHome

namespace Industrial

theorem handle_critical_alert_proj (s : MonitorState) (mid msg : String) (now : Int) :
    (handle_critical_alert s mid msg now).machines = s.machines
    ∧ (handle_critical_alert s mid msg now).production_lines = s.production_lines
    ∧ (handle_critical_alert s mid msg now).stats_messages_processed
        = s.stats_messages_processed
    ∧ (handle_critical_alert s mid msg now).stats_alerts_generated
        = s.stats_alerts_generated := by
  unfold handle_critical_alert
  cases pySplit '_' mid with
  | nil => exact ⟨rfl, rfl, rfl, rfl⟩
  | cons a l =>
    cases l with
    | nil => exact ⟨rfl, rfl, rfl, rfl⟩
    | cons b l2 => exact ⟨rfl, rfl, rfl, rfl⟩

theorem generate_alert_stats (s : MonitorState) (now : Int) (mid : String)
    (level : AlertLevel) (msg : String) (st : Option String) (v th : Option ℚ) :
    (generate_alert s now mid level msg st v th).stats_alerts_generated
      = s.stats_alerts_generated + 1 := by
  unfold generate_alert publish_alert
  by_cases hc : level = AlertLevel.critical
  · simp only [hc, if_pos rfl]
    exact (handle_critical_alert_proj _ _ _ _).2.2.2
  · simp [hc]

theorem generate_alert_msgs (s : MonitorState) (now : Int) (mid : String)
    (level : AlertLevel) (msg : String) (st : Option String) (v th : Option ℚ) :
    (generate_alert s now mid level msg st v th).stats_messages_processed
      = s.stats_messages_processed := by
  unfold generate_alert publish_alert
  by_cases hc : level = AlertLevel.critical
  · simp only [hc, if_pos rfl]
    exact (handle_critical_alert_proj _ _ _ _).2.2.1
  · simp [hc]

theorem generate_alert_lines (s : MonitorState) (now : Int) (mid : String)
    (level : AlertLevel) (msg : String) (st : Option String) (v th : Option ℚ) :
    (generate_alert s now mid level msg st v th).production_lines
      = s.production_lines := by
  unfold generate_alert publish_alert
  by_cases hc : level = AlertLevel.critical
  · simp only [hc, if_pos rfl]
    exact (handle_critical_alert_proj _ _ _ _).2.1
  · simp [hc]

theorem generate_alert_machines (s : MonitorState) (now : Int) (mid : String)
    (level : AlertLevel) (msg : String) (st : Option String) (v th : Option ℚ) :
    (generate_alert s now mid level msg st v th).machines
      = dictUpdate s.machines mid
          (fun m => { m with alerts := appendCapped 100 m.alerts ⟨mid, level, msg, st, v, th, now, false⟩ }) := by
  unfold generate_alert publish_alert
  by_cases hsome : (alookup s.machines mid).isSome = true
  · by_cases hc : level = AlertLevel.critical
    · simp only [hsome, if_pos rfl, hc]
      exact (handle_critical_alert_proj _ _ _ _).1
    · simp [hsome, hc]
  · have habs : alookup s.machines mid = none := Option.not_isSome_iff_eq_none.1 hsome
    rw [dictUpdate_absent _ _ _ habs]
    by_cases hc : level = AlertLevel.critical
    · simp only [hsome, if_neg, hc, if_pos rfl]
      exact (handle_critical_alert_proj _ _ _ _).1
    · simp [hsome, hc]

/-- C3: evaluating the critical auto-response at the identity composed
from `line_id = "line_a"`, `machine_id = "press01"` (the monitor's own
production lines are `line_a`/`line_b`/`line_c`): the command is an
`emergency_stop` tagged `auto_generated` at qos 2, but the outbound topic
recovers the pair `("line", "a_press01")` rather than
`("line_a", "press01")`, so it is not addressed to the originating
device. -/
theorem C3_emergency_misaddressed :
    (handle_critical_alert initState ("line_a" ++ "_" ++ "press01")
        "Temperature critical: 96 C" 0).published
      = [⟨"factory/line/a_press01/emergency",
          .emergency "emergency_stop" "Temperature critical: 96 C" 0 true, 2⟩]
    ∧ ("factory/line/a_press01/emergency" : String)
        ≠ "factory/line_a/press01/emergency" := by
  constructor
  · rfl
  · decide

/-- C9: an inbound event whose payload is not decodable as JSON is dropped
with no partial state mutation: the machine registry, production lines,
outbound publishes and alert counter are unchanged, and the event is
counted.  (`on_message` is a total function: processing never terminates
the process.) -/
theorem C9_malformed_dropped (s : MonitorState) (now : Int) (topic : String) :
    (on_message s now topic none).machines = s.machines
    ∧ (on_message s now topic none).production_lines = s.production_lines
    ∧ (on_message s now topic none).published = s.published
    ∧ (on_message s now topic none).stats_alerts_generated = s.stats_alerts_generated
    ∧ (on_message s now topic none).stats_messages_processed
        = s.stats_messages_processed + 1 :=
  ⟨rfl, rfl, rfl, rfl, rfl⟩

/-- C2: the threshold check of one reading against the threshold table:
no table entry is a no-op; a value below warning raises nothing; a value
at or above warning raises exactly one alert — Critical when the value is
at or above critical, Warning otherwise, never both — appended once to the
device's capped alert list and counted once. -/
theorem C2_threshold_alerts (s : MonitorState) (now : Int) (d : SensorData) :
    (alookup alert_thresholds d.sensor_type = none →
      check_sensor_alerts s now d.machine_id d = s)
    ∧ ∀ wT cT, alookup alert_thresholds d.sensor_type = some (wT, cT) → wT ≤ cT →
        ((d.value < wT → check_sensor_alerts s now d.machine_id d = s)
        ∧ (wT ≤ d.value →
            (check_sensor_alerts s now d.machine_id d).stats_alerts_generated
              = s.stats_alerts_generated + 1
            ∧ ∃ a : Alert,
                a.level = (if cT ≤ d.value then .critical else .warning)
                ∧ a.machine_id = d.machine_id
                ∧ a.sensor_type = some d.sensor_type
                ∧ a.value = some d.value
                ∧ a.threshold = some (if cT ≤ d.value then cT else wT)
                ∧ (check_sensor_alerts s now d.machine_id d).machines
                    = dictUpdate s.machines d.machine_id
                        (fun m => { m with alerts := appendCapped 100 m.alerts a }))) := by
  constructor
  · intro h
    simp [check_sensor_alerts, h]
  · intro wT cT hl hwc
    constructor
    · intro hv
      have h1 : ¬ d.value ≥ cT := by simp; linarith
      have h2 : ¬ d.value ≥ wT := by simp; linarith
      simp [check_sensor_alerts, hl, h1, h2]
    · intro hv
      by_cases hc : cT ≤ d.value
      · have h1 : d.value ≥ cT := hc
        constructor
        · simp only [check_sensor_alerts, hl, if_pos h1]
          exact generate_alert_stats _ _ _ _ _ _ _ _
        · refine ⟨⟨d.machine_id, .critical,
            pyTitle d.sensor_type ++ " critical: " ++ toString d.value ++ " " ++ jvalStr d.unit,
            some d.sensor_type, some d.value, some cT, now, false⟩,
            by simp [hc], rfl, rfl, rfl, by simp [hc], ?_⟩
          simp only [check_sensor_alerts, hl, if_pos h1]
          exact generate_alert_machines _ _ _ _ _ _ _ _
      · have h1 : ¬ d.value ≥ cT := hc
        have h2 : d.value ≥ wT := hv
        constructor
        · simp only [check_sensor_alerts, hl, if_neg h1, if_pos h2]
          exact generate_alert_stats _ _ _ _ _ _ _ _
        · refine ⟨⟨d.machine_id, .warning,
            pyTitle d.sensor_type ++ " high: " ++ toString d.value ++ " " ++ jvalStr d.unit,
            some d.sensor_type, some d.value, some wT, now, false⟩,
            by simp [hc], rfl, rfl, rfl, by simp [hc], ?_⟩
          simp only [check_sensor_alerts, hl, if_neg h1, if_pos h2]
          exact generate_alert_machines _ _ _ _ _ _ _ _

/-- C2, witnessed at a 96-degree temperature reading against the
configured `(warning 80, critical 95)` entry: exactly one alert is counted. -/
theorem C2_threshold_alerts_witness :
    (check_sensor_alerts sampleState 0 sampleReading96.machine_id sampleReading96).stats_alerts_generated
      = sampleState.stats_alerts_generated + 1 :=
  (((C2_threshold_alerts sampleState 0 sampleReading96).2 80 95 rfl (by norm_num)).2
    (by decide)).1

/-- C4: the window append of the sensor store: every accepted reading
grows the window by exactly one entry up to the 1000 cap; below the cap
the append is plain (order preserved); in general the result is the last
`min (n+1) 1000` entries in arrival order (FIFO eviction of the oldest);
appending any sequence of readings to an empty window keeps exactly the
last 1000 in arrival order (so 1001 appends keep the last 1000); and in
the per-(device, kind) dictionary exactly the addressed window changes. -/
theorem C4_window_fifo :
    (∀ (w : List SensorData) (d : SensorData),
      (appendCapped 1000 w d).length = min (w.length + 1) 1000)
    ∧ (∀ (w : List SensorData) (d : SensorData), w.length < 1000 →
        appendCapped 1000 w d = w ++ [d])
    ∧ (∀ (w : List SensorData) (d : SensorData),
        appendCapped 1000 w d = (w ++ [d]).drop (w.length + 1 - 1000))
    ∧ (∀ ds : List SensorData,
        ds.foldl (appendCapped 1000) [] = ds.drop (ds.length - 1000))
    ∧ (∀ (sd : List (String × List SensorData)) (st : String) (d : SensorData),
        alookup (windowAppendDict sd st d) st
          = some (appendCapped 1000 ((alookup sd st).getD []) d)
        ∧ ∀ k, k ≠ st → alookup (windowAppendDict sd st d) k = alookup sd k) := by
  refine ⟨fun w d => appendCapped_length 1000 w d,
    fun w d h => appendCapped_of_lt 1000 w d h,
    fun w d => appendCapped_eq_drop 1000 w d, ?_, ?_⟩
  · intro ds
    have h := foldl_appendCapped 1000 ds [] (by simp)
    simpa using h
  · intro sd st d
    simp only [windowAppendDict]
    by_cases habs : (alookup sd st).isNone = true
    · have hnone : alookup sd st = none := Option.isNone_iff_eq_none.1 habs
      rw [if_pos habs]
      constructor
      · rw [alookup_dictUpdate, if_pos rfl, alookup_append, hnone]
        simp [alookup, hnone]
      · intro k hk
        rw [alookup_dictUpdate, if_neg hk, alookup_append]
        by_cases hks : (alookup sd k).isSome = true
        · simp [hks]
        · have hn2 : alookup sd k = none := Option.not_isSome_iff_eq_none.1 hks
          simp [hn2, alookup, Ne.symm hk]
    · rw [if_neg habs]
      have hsome : (alookup sd st).isSome = true := by
        cases hx : alookup sd st with
        | none => rw [hx] at habs; simp at habs
        | some w => simp
      obtain ⟨w, hw⟩ := Option.isSome_iff_exists.1 hsome
      constructor
      · rw [alookup_dictUpdate, if_pos rfl, hw]
        simp [hw]
      · intro k hk
        rw [alookup_dictUpdate, if_neg hk]

/-- C4, witnessed: appending to a window of fewer than 1000 entries is a
plain ordered append. -/
theorem C4_window_fifo_witness :
    appendCapped 1000 ([] : List SensorData) sampleReading96 = [sampleReading96] :=
  C4_window_fifo.2.1 [] sampleReading96 (by decide)

theorem getD_append_same (p : List (String × JVal)) (k0 : String) (v0 : JVal)
    (h : alookup p k0 = none) (d0 : JVal) :
    getD (p ++ [(k0, v0)]) k0 d0 = v0 := by
  unfold getD
  rw [alookup_append, h]
  simp [alookup]

theorem getD_append_other (p : List (String × JVal)) (k0 : String) (v0 : JVal)
    (k : String) (d0 : JVal) (hk : k ≠ k0) :
    getD (p ++ [(k0, v0)]) k d0 = getD p k d0 := by
  unfold getD
  rw [alookup_append]
  by_cases h : (alookup p k).isSome = true
  · simp [h]
  · have hnone : alookup p k = none := Option.not_isSome_iff_eq_none.1 h
    simp [hnone, alookup, Ne.symm hk]

theorem getD_of_absent (p : List (String × JVal)) (k : String) (d0 : JVal)
    (h : alookup p k = none) : getD p k d0 = d0 := by
  unfold getD
  rw [h]
  rfl

/-- C10: a decoded sensor payload with no `value` field is neither dropped
nor flagged: the constructed reading carries the numeric value 0, and the
whole handling of the event — window append, threshold check, metrics
recompute — is identical to handling the same payload with an explicit
`value` of 0. -/
theorem C10_missing_value_default (s : MonitorState) (now : Int)
    (line_id machine_id sensor_type : String) (p : List (String × JVal))
    (h : alookup p "value" = none) :
    (∀ d : SensorData,
        mkSensorData (line_id ++ "_" ++ machine_id) sensor_type now p = some d →
          d.value = 0)
    ∧ handle_sensor_data s now line_id machine_id sensor_type p
        = handle_sensor_data s now line_id machine_id sensor_type
            (p ++ [("value", JVal.num 0)]) := by
  have hval : getD p "value" (.num 0) = .num 0 := getD_of_absent p "value" (.num 0) h
  constructor
  · intro d hd
    unfold mkSensorData at hd
    rw [hval] at hd
    cases hpt : parseTime (getD p "timestamp" (.time now)) with
    | none => rw [hpt] at hd; simp [jvalToFloat] at hd
    | some t =>
      cases hpq : jvalToFloat (getD p "quality" (.num 1)) with
      | none => rw [hpt, hpq] at hd; simp [jvalToFloat] at hd
      | some q =>
        rw [hpt, hpq] at hd
        simp only [jvalToFloat, Option.some.injEq] at hd
        rw [← hd]
  · have hmt : getD (p ++ [("value", JVal.num 0)]) "machine_type" (.str "unknown")
        = getD p "machine_type" (.str "unknown") :=
      getD_append_other p "value" (.num 0) "machine_type" (.str "unknown") (by decide)
    have hmk : mkSensorData (line_id ++ "_" ++ machine_id) sensor_type now
          (p ++ [("value", JVal.num 0)])
        = mkSensorData (line_id ++ "_" ++ machine_id) sensor_type now p := by
      unfold mkSensorData
      rw [getD_append_same p "value" (JVal.num 0) h, hval,
        getD_append_other p "value" (.num 0) "timestamp" (.time now) (by decide),
        getD_append_other p "value" (.num 0) "quality" (.num 1) (by decide),
        getD_append_other p "value" (.num 0) "unit" (.str "") (by decide)]
    simp only [handle_sensor_data]
    rw [hmt, hmk]

/-- C10, witnessed on a unit-only pressure payload. -/
theorem C10_missing_value_default_witness :
    handle_sensor_data sampleState 5 "line_a" "press01" "pressure"
        [("unit", JVal.str "bar")]
      = handle_sensor_data sampleState 5 "line_a" "press01" "pressure"
          ([("unit", JVal.str "bar")] ++ [("value", JVal.num 0)]) :=
  (C10_missing_value_default sampleState 5 "line_a" "press01" "pressure"
    [("unit", JVal.str "bar")] (by decide)).2

theorem strAppend_ne (st a b : String) (h : a ≠ b) : st ++ a ≠ st ++ b := by
  intro hc
  apply h
  have hdata : st.data ++ a.data = st.data ++ b.data := by
    rw [← String.data_append, ← String.data_append, hc]
  have h2 : a.data = b.data := List.append_cancel_left hdata
  exact congrArg String.mk h2

/-- C5: the metrics recompute for one (device, kind) window: with fewer
than 10 readings nothing is written and nothing fails; with at least 10,
exactly the five keys `{kind}_mean/std/min/max/trend` are written into the
device's metric mapping (every other key and every other machine field is
unchanged), computed over the values of the most recent 100 readings —
the mean, the square root of the sample variance with the `n - 1`
denominator, the minimum, the maximum, and the ordinary-least-squares
slope over (0-based index, value) pairs with the zero-denominator
convention.  For values 1..10 the mean is 5.5 and the trend slope is 1. -/
theorem C5_metrics (m : Machine) (st : String) (w : List SensorData)
    (hw : alookup m.sensor_data st = some w) :
    (w.length < 10 → calculate_performance_metrics m st = m)
    ∧ (10 ≤ w.length →
        alookup (calculate_performance_metrics m st).performance_metrics (st ++ "_mean")
          = some (.q (listMean (recentValues w)))
        ∧ alookup (calculate_performance_metrics m st).performance_metrics (st ++ "_std")
          = some (.sqrtv (sampleVarianceNm1 (recentValues w)))
        ∧ alookup (calculate_performance_metrics m st).performance_metrics (st ++ "_min")
          = some (.q (pyMin (recentValues w)))
        ∧ alookup (calculate_performance_metrics m st).performance_metrics (st ++ "_max")
          = some (.q (pyMax (recentValues w)))
        ∧ alookup (calculate_performance_metrics m st).performance_metrics (st ++ "_trend")
          = some (.q (calculate_trend (recentValues w)))
        ∧ (∀ k, k ≠ st ++ "_mean" → k ≠ st ++ "_std" → k ≠ st ++ "_min" →
            k ≠ st ++ "_max" → k ≠ st ++ "_trend" →
            alookup (calculate_performance_metrics m st).performance_metrics k
              = alookup m.performance_metrics k)
        ∧ (calculate_performance_metrics m st).status = m.status
        ∧ (calculate_performance_metrics m st).sensor_data = m.sensor_data
        ∧ (calculate_performance_metrics m st).alerts = m.alerts
        ∧ (calculate_performance_metrics m st).last_seen = m.last_seen)
    ∧ listMean [1,2,3,4,5,6,7,8,9,10] = 11 / 2
    ∧ calculate_trend [1,2,3,4,5,6,7,8,9,10] = 1 := by
  have hvl : (recentValues w).length = w.length - (w.length - 100) := by
    simp [recentValues]
  refine ⟨?_, ?_, ?_, ?_⟩
  · intro h10
    have hlt : ¬ (recentValues w).length ≥ 10 := by omega
    simp [calculate_performance_metrics, hw, hlt]
  · intro h10
    have hge : (recentValues w).length ≥ 10 := by omega
    have hgt1 : (recentValues w).length > 1 := by omega
    have nMeanStd : st ++ "_mean" ≠ st ++ "_std" := strAppend_ne st _ _ (by decide)
    have nMeanMin : st ++ "_mean" ≠ st ++ "_min" := strAppend_ne st _ _ (by decide)
    have nMeanMax : st ++ "_mean" ≠ st ++ "_max" := strAppend_ne st _ _ (by decide)
    have nMeanTrend : st ++ "_mean" ≠ st ++ "_trend" := strAppend_ne st _ _ (by decide)
    have nStdMin : st ++ "_std" ≠ st ++ "_min" := strAppend_ne st _ _ (by decide)
    have nStdMax : st ++ "_std" ≠ st ++ "_max" := strAppend_ne st _ _ (by decide)
    have nStdTrend : st ++ "_std" ≠ st ++ "_trend" := strAppend_ne st _ _ (by decide)
    have nMinMax : st ++ "_min" ≠ st ++ "_max" := strAppend_ne st _ _ (by decide)
    have nMinTrend : st ++ "_min" ≠ st ++ "_trend" := strAppend_ne st _ _ (by decide)
    have nMaxTrend : st ++ "_max" ≠ st ++ "_trend" := strAppend_ne st _ _ (by decide)
    simp only [calculate_performance_metrics, hw, if_pos hge, if_pos hgt1, dictSetMany,
      List.foldl_cons, List.foldl_nil]
    refine ⟨?_, ?_, ?_, ?_, ?_, ?_, by trivial, by trivial, by trivial, by trivial⟩
    · simp [alookup_dictSet, nMeanTrend, nMeanMax, nMeanMin, nMeanStd]
    · simp [alookup_dictSet, nStdTrend, nStdMax, nStdMin]
    · simp [alookup_dictSet, nMinTrend, nMinMax]
    · simp [alookup_dictSet, nMaxTrend]
    · simp [alookup_dictSet]
    · intro k hk1 hk2 hk3 hk4 hk5
      simp [alookup_dictSet, hk1, hk2, hk3, hk4, hk5]
  · norm_num [listMean, List.sum_cons, List.sum_nil]
  · have hr : List.range 10 = [0,1,2,3,4,5,6,7,8,9] := rfl
    simp only [calculate_trend]
    norm_num [hr, List.zip, List.zipWith, List.sum_cons, List.sum_nil]

/-- C5, witnessed on the ten-reading 1..10 temperature window of
`sampleMachine`: the `temperature_mean` metric is written with the window
mean. -/
theorem C5_metrics_witness :
    alookup (calculate_performance_metrics sampleMachine "temperature").performance_metrics
        ("temperature" ++ "_mean")
      = some (.q (listMean (recentValues sampleWindow))) :=
  ((C5_metrics sampleMachine "temperature" sampleWindow rfl).2.1 (by decide)).1

theorem send_machine_command_machines (s : MonitorState) (mid cmd : String) (now : Int) :
    (send_machine_command s mid cmd now).machines = s.machines := by
  unfold send_machine_command
  cases pySplit '_' mid with
  | nil => rfl
  | cons a l =>
    cases l with
    | nil => rfl
    | cons b l2 => rfl

theorem handle_command_machines (s : MonitorState) (now : Int)
    (line_id machine_id : String) (payload : List (String × JVal)) :
    (handle_command s now line_id machine_id payload).machines = s.machines := by
  unfold handle_command
  split
  · exact send_machine_command_machines _ _ _ _
  · exact send_machine_command_machines _ _ _ _
  · rfl

theorem generate_alert_keys (s : MonitorState) (now : Int) (mid : String)
    (level : AlertLevel) (msg : String) (st : Option String) (v th : Option ℚ) :
    (generate_alert s now mid level msg st v th).machines.map Prod.fst
      = s.machines.map Prod.fst := by
  rw [generate_alert_machines]
  exact dictUpdate_map_fst _ _ _

theorem check_sensor_alerts_keys (s : MonitorState) (now : Int) (mid : String)
    (d : SensorData) :
    (check_sensor_alerts s now mid d).machines.map Prod.fst = s.machines.map Prod.fst := by
  unfold check_sensor_alerts
  split
  · rfl
  · split
    · exact generate_alert_keys _ _ _ _ _ _ _ _
    · split
      · exact generate_alert_keys _ _ _ _ _ _ _ _
      · rfl

theorem handle_sensor_data_keys (s : MonitorState) (now : Int)
    (line_id machine_id sensor_type : String) (payload : List (String × JVal)) :
    (handle_sensor_data s now line_id machine_id sensor_type payload).machines.map Prod.fst
      = s.machines.map Prod.fst ++
          (if (alookup s.machines (line_id ++ "_" ++ machine_id)).isNone = true
            then [line_id ++ "_" ++ machine_id] else []) := by
  simp only [handle_sensor_data]
  by_cases habs : (alookup s.machines (line_id ++ "_" ++ machine_id)).isNone = true
  · rw [if_pos habs, if_pos habs]
    cases hmk : mkSensorData (line_id ++ "_" ++ machine_id) sensor_type now payload with
    | none => simp [dictUpdate_map_fst]
    | some d =>
      simp only [hmk]
      rw [dictUpdate_map_fst, check_sensor_alerts_keys, dictUpdate_map_fst,
        dictUpdate_map_fst]
      simp
  · rw [if_neg habs, if_neg habs]
    cases hmk : mkSensorData (line_id ++ "_" ++ machine_id) sensor_type now payload with
    | none => simp [dictUpdate_map_fst]
    | some d =>
      simp only [hmk]
      rw [dictUpdate_map_fst, check_sensor_alerts_keys, dictUpdate_map_fst,
        dictUpdate_map_fst]
      simp

theorem handle_status_update_keys (s : MonitorState) (now : Int)
    (line_id machine_id : String) (payload : List (String × JVal)) :
    (handle_status_update s now line_id machine_id payload).machines.map Prod.fst
      = s.machines.map Prod.fst := by
  simp only [handle_status_update]
  cases hl : alookup s.machines (line_id ++ "_" ++ machine_id) with
  | none => rfl
  | some m =>
    cases hp : parseStatus (getD payload "status" (JVal.str "offline")) with
    | none => rfl
    | some ns =>
      dsimp only
      by_cases hc : m.status ≠ ns ∧ ns = MachineStatus.error
      · rw [if_pos hc, generate_alert_keys]
        exact dictUpdate_map_fst _ _ _
      · rw [if_neg hc]
        exact dictUpdate_map_fst _ _ _

theorem handle_maintenance_data_keys (s : MonitorState) (now : Int)
    (line_id machine_id : String) (payload : List (String × JVal)) :
    (handle_maintenance_data s now line_id machine_id payload).machines.map Prod.fst
      = s.machines.map Prod.fst := by
  simp only [handle_maintenance_data]
  cases hl : alookup s.machines (line_id ++ "_" ++ machine_id) with
  | none => rfl
  | some m =>
    dsimp only
    rw [generate_alert_keys]
    exact dictUpdate_map_fst _ _ _

theorem isSome_of_keys_eq {α : Type} (d1 d2 : List (String × α))
    (h : d1.map Prod.fst = d2.map Prod.fst) (k : String) :
    (alookup d1 k).isSome = (alookup d2 k).isSome := by
  rw [Bool.eq_iff_iff, alookup_isSome_iff_mem, alookup_isSome_iff_mem, h]

theorem handle_sensor_data_hasMachine (s : MonitorState) (now : Int)
    (line_id machine_id sensor_type : String) (payload : List (String × JVal))
    (mid : String) :
    (alookup (handle_sensor_data s now line_id machine_id sensor_type payload).machines
        mid).isSome = true
      ↔ ((alookup s.machines mid).isSome = true ∨ mid = line_id ++ "_" ++ machine_id) := by
  rw [alookup_isSome_iff_mem, handle_sensor_data_keys, alookup_isSome_iff_mem]
  by_cases habs : (alookup s.machines (line_id ++ "_" ++ machine_id)).isNone = true
  · rw [if_pos habs]
    simp [List.mem_append]
  · rw [if_neg habs]
    simp only [List.append_nil]
    constructor
    · exact Or.inl
    · intro h
      rcases h with h | h
      · exact h
      · have hsome : (alookup s.machines (line_id ++ "_" ++ machine_id)).isSome = true := by
          cases hx : alookup s.machines (line_id ++ "_" ++ machine_id) with
          | none => rw [hx] at habs; simp at habs
          | some m => simp
        rw [h]
        exact (alookup_isSome_iff_mem _ _).1 hsome

theorem on_message_hasMachine (s : MonitorState) (now : Int) (topic : String)
    (payload : Option (List (String × JVal))) (mid : String) :
    (alookup (on_message s now topic payload).machines mid).isSome = true
      ↔ ((alookup s.machines mid).isSome = true
          ∨ sensorCreates topic payload mid = true) := by
  simp only [on_message]
  cases payload with
  | none => simp [sensorCreates]
  | some p =>
    simp only [sensorCreates, Option.isSome_some, Bool.true_and]
    rcases hsp : pySplit '/' topic with _ | ⟨p0, _ | ⟨p1, _ | ⟨p2, _ | ⟨p3, t3⟩⟩⟩⟩
    · simp [hsp]
    · simp [hsp]
    · simp [hsp]
    · simp [hsp]
    · simp only [hsp]
      by_cases hmt : p3 = "sensors"
      · subst hmt
        rw [if_pos rfl]
        cases t3 with
        | nil => simp
        | cons st0 t4 =>
          rw [handle_sensor_data_hasMachine]
          simp [beq_iff_eq]
      · rw [if_neg hmt]
        by_cases h1 : p3 = "status"
        · rw [if_pos h1, isSome_of_keys_eq _ _ (handle_status_update_keys _ _ _ _ _) mid]
          cases t3 with
          | nil => simp
          | cons a t4 => simp [hmt]
        · rw [if_neg h1]
          by_cases h2 : p3 = "commands"
          · rw [if_pos h2, handle_command_machines]
            cases t3 with
            | nil => simp
            | cons a t4 => simp [hmt]
          · rw [if_neg h2]
            by_cases h3 : p3 = "maintenance"
            · rw [if_pos h3,
                isSome_of_keys_eq _ _ (handle_maintenance_data_keys _ _ _ _ _) mid]
              cases t3 with
              | nil => simp
              | cons a t4 => simp [hmt]
            · rw [if_neg h3]
              cases t3 with
              | nil => simp
              | cons a t4 => simp [hmt]

theorem processTrace_hasMachine :
    ∀ (msgs : List RawMsg) (s : MonitorState) (mid : String),
      (alookup (msgs.foldl (fun s m => on_message s m.time m.topic m.payload) s).machines
          mid).isSome = true
        ↔ ((alookup s.machines mid).isSome = true
            ∨ ∃ m ∈ msgs, sensorCreates m.topic m.payload mid = true)
  | [], s, mid => by simp
  | m0 :: msgs, s, mid => by
    rw [List.foldl_cons, processTrace_hasMachine msgs _ mid, on_message_hasMachine]
    simp only [List.mem_cons]
    constructor
    · rintro (⟨h | h⟩ | ⟨m, hm, h⟩)
      · exact Or.inl h
      · exact Or.inr ⟨m0, Or.inl rfl, h⟩
      · exact Or.inr ⟨m, Or.inr hm, h⟩
    · rintro (h | ⟨m, (rfl | hm), h⟩)
      · exact Or.inl (Or.inl h)
      · exact Or.inl (Or.inr h)
      · exact Or.inr ⟨m, hm, h⟩

/-- C8: the claim as stated is false on the code: a status-update event
referencing the never-before-seen identity `line_a_press01` does not
create a registry entry — only sensor-data events create entries. -/
theorem C8_counterexample :
    pySplit '/' "factory/line_a/press01/status"
        = ["factory", "line_a", "press01", "status"]
    ∧ (alookup (processTrace
          [⟨0, "factory/line_a/press01/status", some [("status", JVal.str "running")]⟩]).machines
        "line_a_press01").isSome = false := by
  constructor
  · rfl
  · rfl

/-- C8 (amended): a Device exists in the registry iff at least one
decodable sensor-data event whose composed identity is that device has
been observed; status-update, command and maintenance events never create
entries (they are ignored for unknown identities); and entries are never
deleted — every dispatcher step preserves existing entries. -/
theorem C8_amended_registry :
    (∀ (msgs : List RawMsg) (mid : String),
      (alookup (processTrace msgs).machines mid).isSome = true
        ↔ ∃ m ∈ msgs, sensorCreates m.topic m.payload mid = true)
    ∧ (∀ (s : MonitorState) (now : Int) (topic : String)
        (payload : Option (List (String × JVal))) (mid : String),
        (alookup s.machines mid).isSome = true →
        (alookup (on_message s now topic payload).machines mid).isSome = true) := by
  constructor
  · intro msgs mid
    rw [processTrace, processTrace_hasMachine]
    simp [initState, alookup]
  · intro s now topic payload mid h
    rw [on_message_hasMachine]
    exact Or.inl h

/-- C8 amended, witnessed: an existing entry survives a further event. -/
theorem C8_amended_registry_witness :
    (alookup (on_message sampleState 1 "factory/alerts/critical"
        (some [])).machines "line_a_press01").isSome = true :=
  C8_amended_registry.2 sampleState 1 "factory/alerts/critical" (some [])
    "line_a_press01" rfl

theorem health_check_one_machines (now : Int) (s : MonitorState) (k mid : String) :
    alookup (health_check_one now s k).machines mid
      = if mid = k then Option.map (healthStep now k) (alookup s.machines k)
        else alookup s.machines mid := by
  unfold health_check_one
  cases hk : alookup s.machines k with
  | none =>
    by_cases h : mid = k
    · subst h; simp [hk]
    · simp [h]
  | some m =>
    dsimp only
    cases hls : m.last_seen with
    | none =>
      by_cases h : mid = k
      · subst h; simp [hk, healthStep, hls]
      · simp [h]
    | some t =>
      dsimp only
      by_cases ht : now - t > 300
      · rw [if_pos ht]
        by_cases hst : m.status ≠ MachineStatus.offline
        · rw [if_pos hst, generate_alert_machines, dictUpdate_dictUpdate, alookup_dictUpdate]
          by_cases h : mid = k
          · subst h
            simp [hk, healthStep, hls, ht, hst, offlineAlert]
          · simp [h]
        · rw [if_neg hst]
          have hst' : m.status = MachineStatus.offline := not_not.1 hst
          by_cases h : mid = k
          · subst h
            simp [hk, healthStep, hls, hst']
          · simp [h]
      · rw [if_neg ht]
        by_cases h : mid = k
        · subst h
          simp [hk, healthStep, hls, ht]
        · simp [h]

theorem health_check_one_stats (now : Int) (s : MonitorState) (k : String) :
    (health_check_one now s k).stats_alerts_generated
      = s.stats_alerts_generated
        + (if ((alookup s.machines k).map (triggered now)).getD false = true then 1 else 0) := by
  unfold health_check_one
  cases hk : alookup s.machines k with
  | none => simp
  | some m =>
    dsimp only
    cases hls : m.last_seen with
    | none => simp [triggered, hls]
    | some t =>
      dsimp only
      by_cases ht : now - t > 300
      · rw [if_pos ht]
        by_cases hst : m.status ≠ MachineStatus.offline
        · rw [if_pos hst, generate_alert_stats]
          simp [triggered, hls, ht, hst]
        · rw [if_neg hst]
          simp [triggered, hls, hst]
      · rw [if_neg ht]
        simp [triggered, hls, ht]

theorem health_check_one_keys (now : Int) (s : MonitorState) (k : String) :
    (health_check_one now s k).machines.map Prod.fst = s.machines.map Prod.fst := by
  unfold health_check_one
  cases hk : alookup s.machines k with
  | none => rfl
  | some m =>
    dsimp only
    cases hls : m.last_seen with
    | none => rfl
    | some t =>
      dsimp only
      by_cases ht : now - t > 300
      · rw [if_pos ht]
        by_cases hst : m.status ≠ MachineStatus.offline
        · rw [if_pos hst, generate_alert_keys, dictUpdate_map_fst]
        · rw [if_neg hst]
      · rw [if_neg ht]

theorem health_check_one_noop (now : Int) (s : MonitorState) (k : String)
    (h : ((alookup s.machines k).map (triggered now)).getD false = false) :
    health_check_one now s k = s := by
  unfold health_check_one
  cases hk : alookup s.machines k with
  | none => rfl
  | some m =>
    rw [hk] at h
    simp only [Option.map_some', Option.getD_some] at h
    dsimp only
    cases hls : m.last_seen with
    | none => rfl
    | some t =>
      simp only [triggered, hls] at h
      dsimp only
      by_cases ht : now - t > 300
      · rw [if_pos ht]
        by_cases hst : m.status ≠ MachineStatus.offline
        · exfalso
          simp [ht, hst] at h
        · rw [if_neg hst]
      · rw [if_neg ht]

theorem triggered_healthStep (now : Int) (mid : String) (m : Machine) :
    triggered now (healthStep now mid m) = false := by
  unfold healthStep
  cases hls : m.last_seen with
  | none => simp [triggered, hls]
  | some t =>
    dsimp only
    by_cases hc : now - t > 300 ∧ m.status ≠ MachineStatus.offline
    · rw [if_pos hc]
      simp [triggered, hls]
    · rw [if_neg hc]
      simp only [triggered, hls]
      by_cases ht : now - t > 300
      · have hst : ¬ m.status ≠ MachineStatus.offline := fun h => hc ⟨ht, h⟩
        simp [hst]
      · simp [ht]

theorem phc_fold_keys (now : Int) :
    ∀ (ks : List String) (s : MonitorState),
      (ks.foldl (health_check_one now) s).machines.map Prod.fst = s.machines.map Prod.fst
  | [], s => rfl
  | k :: ks, s => by
    rw [List.foldl_cons, phc_fold_keys now ks _, health_check_one_keys]

theorem phc_fold_noop (now : Int) :
    ∀ (ks : List String) (s : MonitorState),
      (∀ k ∈ ks, health_check_one now s k = s) →
      ks.foldl (health_check_one now) s = s
  | [], _, _ => rfl
  | k :: ks, s, h => by
    rw [List.foldl_cons, h k (by simp)]
    exact phc_fold_noop now ks s (fun k' hk' => h k' (by simp [hk']))

theorem phc_fold_char (now : Int) :
    ∀ (ks : List String) (s : MonitorState), ks.Nodup →
      (∀ mid, alookup (ks.foldl (health_check_one now) s).machines mid
          = if mid ∈ ks then Option.map (healthStep now mid) (alookup s.machines mid)
            else alookup s.machines mid)
      ∧ (ks.foldl (health_check_one now) s).stats_alerts_generated
          = s.stats_alerts_generated
            + (ks.filter
                (fun k => ((alookup s.machines k).map (triggered now)).getD false)).length
  | [], s, _ => by simp
  | k :: ks, s, hnd => by
    have hk_not : k ∉ ks := (List.nodup_cons.1 hnd).1
    have hnd' : ks.Nodup := (List.nodup_cons.1 hnd).2
    have ih := phc_fold_char now ks (health_check_one now s k) hnd'
    rw [List.foldl_cons]
    constructor
    · intro mid
      rw [ih.1 mid]
      by_cases hmem : mid ∈ ks
      · have hne : ¬ mid = k := fun h => hk_not (h ▸ hmem)
        simp [hmem, health_check_one_machines, hne]
      · by_cases heq : mid = k
        · subst heq
          simp [hmem, health_check_one_machines]
        · simp [hmem, heq, health_check_one_machines]
    · have hcong : ks.filter (fun k' =>
            ((alookup (health_check_one now s k).machines k').map (triggered now)).getD false)
          = ks.filter (fun k' => ((alookup s.machines k').map (triggered now)).getD false) := by
        apply List.filter_congr
        intro k' hk'
        have hne : ¬ k' = k := fun h => hk_not (h ▸ hk')
        rw [health_check_one_machines, if_neg hne]
      rw [ih.2, health_check_one_stats, hcong, List.filter_cons]
      by_cases htr : ((alookup s.machines k).map (triggered now)).getD false = true
      · rw [if_pos htr, if_pos htr]
        simp only [List.length_cons]
        omega
      · rw [if_neg htr, if_neg htr]
        omega

theorem filter_keys_triggered (now : Int) :
    ∀ (d : List (String × Machine)), (d.map Prod.fst).Nodup →
      ((d.map Prod.fst).filter
          (fun k => ((alookup d k).map (triggered now)).getD false)).length
        = (d.filter (fun p => triggered now p.2)).length
  | [], _ => rfl
  | (k0, m0) :: rest, hnd => by
    simp only [List.map_cons] at hnd
    have hk0 : k0 ∉ rest.map Prod.fst := (List.nodup_cons.1 hnd).1
    have hnd' : (rest.map Prod.fst).Nodup := (List.nodup_cons.1 hnd).2
    simp only [List.map_cons, List.filter_cons]
    have hhead : alookup ((k0, m0) :: rest) k0 = some m0 := by simp [alookup]
    have hcong : (rest.map Prod.fst).filter
          (fun k => ((alookup ((k0, m0) :: rest) k).map (triggered now)).getD false)
        = (rest.map Prod.fst).filter
          (fun k => ((alookup rest k).map (triggered now)).getD false) := by
      apply List.filter_congr
      intro k hk
      have hne : ¬ k0 = k := fun h => hk0 (h ▸ hk)
      simp [alookup, hne]
    rw [hcong, hhead]
    simp only [Option.map_some', Option.getD_some]
    by_cases htr : triggered now m0 = true
    · rw [if_pos htr, if_pos htr]
      simp only [List.length_cons]
      rw [filter_keys_triggered now rest hnd']
    · rw [if_neg htr, if_neg htr]
      exact filter_keys_triggered now rest hnd'

/-- C6: the liveness sweep is guarded and idempotent.  Per machine, one
sweep acts exactly as `healthStep`: a machine with a last-seen instant
more than 300 seconds (5 minutes) before `now` whose status is not
already Offline goes Offline with exactly one Warning alert appended;
the alert counter grows by exactly the number of machines so
transitioned; running the sweep again immediately is a complete no-op
(same registry, counters, alert lists and outbound publishes); a machine
with no last-seen instant is always skipped, as is one already Offline. -/
theorem C6_liveness_sweep (now : Int) (s : MonitorState)
    (hnd : (s.machines.map Prod.fst).Nodup) :
    (∀ mid, alookup (perform_health_check now s).machines mid
        = Option.map (healthStep now mid) (alookup s.machines mid))
    ∧ (perform_health_check now s).stats_alerts_generated
        = s.stats_alerts_generated + (s.machines.filter (fun p => triggered now p.2)).length
    ∧ perform_health_check now (perform_health_check now s) = perform_health_check now s
    ∧ (∀ (mid : String) (m : Machine), m.last_seen = none → healthStep now mid m = m)
    ∧ (∀ (mid : String) (m : Machine), m.status = .offline → healthStep now mid m = m)
    ∧ (∀ (mid : String) (m : Machine) (t : Int), m.last_seen = some t →
        now - t > 300 → m.status ≠ .offline →
        healthStep now mid m
          = { m with status := .offline, alerts := appendCapped 100 m.alerts (offlineAlert now mid t) }) := by
  have hchar := phc_fold_char now (s.machines.map Prod.fst) s hnd
  have hlook : ∀ mid, alookup (perform_health_check now s).machines mid
      = Option.map (healthStep now mid) (alookup s.machines mid) := by
    intro mid
    rw [perform_health_check, hchar.1 mid]
    by_cases hmem : mid ∈ s.machines.map Prod.fst
    · rw [if_pos hmem]
    · rw [if_neg hmem]
      have hnone : alookup s.machines mid = none := by
        cases hx : alookup s.machines mid with
        | none => rfl
        | some m =>
          exact absurd ((alookup_isSome_iff_mem _ _).1 (by simp [hx])) hmem
      rw [hnone]
      rfl
  refine ⟨hlook, ?_, ?_, ?_, ?_, ?_⟩
  · rw [perform_health_check, hchar.2, filter_keys_triggered now s.machines hnd]
  · have hkeys2 : (perform_health_check now s).machines.map Prod.fst
        = s.machines.map Prod.fst := by
      rw [perform_health_check]
      exact phc_fold_keys now _ s
    rw [show perform_health_check now (perform_health_check now s)
        = ((perform_health_check now s).machines.map Prod.fst).foldl
            (health_check_one now) (perform_health_check now s) from rfl]
    rw [hkeys2]
    apply phc_fold_noop
    intro k hk
    apply health_check_one_noop
    rw [hlook k]
    cases hx : alookup s.machines k with
    | none => rfl
    | some m => simp [triggered_healthStep]
  · intro mid m h
    simp [healthStep, h]
  · intro mid m h
    cases hls : m.last_seen with
    | none => simp [healthStep, hls]
    | some t => simp [healthStep, hls, h]
  · intro mid m t hls ht hst
    simp [healthStep, hls, ht, hst]

/-- C6, witnessed: sweeping at instant 400 a registry whose only machine
was last seen at instant 0 (6+ minutes ago) acts as `healthStep` on it. -/
theorem C6_liveness_sweep_witness :
    alookup (perform_health_check 400 sampleState).machines "line_a_press01"
      = Option.map (healthStep 400 "line_a_press01")
          (alookup sampleState.machines "line_a_press01") :=
  (C6_liveness_sweep 400 sampleState (by decide)).1 "line_a_press01"

end Industrial
